import Mathlib

/-
Verification development for the j-practice repository (src/app.py).

The live code of the repository is the settings block, the Question
dataclass (lines 103-111), the QuestionManager class (lines 114-190) and
the App class (lines 197-235); the rest of app.py is commented out.  The
definitions below are a shallow embedding of that code: Python lists
become Lean lists, the float values parsed during loading become exact
decimals, callbacks are recorded as the list of rows they were invoked
on, and a raised exception becomes an error value accompanying the state
reached at the moment of the raise.
-/

/-- Exact decimal number produced by the float parse: the value num / den,
where den is the power of ten determined by the number of fractional
digits.  The pair is kept unreduced so every computation below evaluates
by kernel reduction. -/
structure PyFloat where
  num : Int
  den : Nat
  deriving DecidableEq

/-- Values a field of the Question dataclass can hold in this program:
the row cells are strings, the parsed point values are numbers, the tags
argument is a list of strings, and the declared default of the tags field
(line 111) is the builtin list type object itself. -/
inductive PyVal where
  | vStr (s : String)
  | vNum (x : PyFloat)
  | vStrList (l : List String)
  | vListType
  deriving DecidableEq

/-- The Question dataclass (lines 103-111): six required positional
fields - identifer, question, answer, correct_value, incorrect_value,
skip_value - and an optional seventh field tags. -/
structure Question where
  identifer : PyVal
  question : PyVal
  answer : PyVal
  correct_value : PyVal
  incorrect_value : PyVal
  skip_value : PyVal
  tags : PyVal
  deriving DecidableEq

/-- The Python exceptions this program can raise, tagged with the data
the raise site formats into the message. -/
inductive PyError where
  | indexErrorShortRow (row : List String)
  | indexErrorEmptyChoice
  | valueErrorBadFloat (row : List String)
  | typeErrorArity
  | unboundLocal (v : String)
  | attributeError (attr : String)
  | nameError (v : String)
  deriving DecidableEq

deriving instance DecidableEq for Except

/-- QuestionManager (lines 114-124): the loaded question bank and the
queue of upcoming questions. -/
structure QuestionManager where
  _questions : List Question
  _queue : List Question
  deriving DecidableEq

/-- QuestionManager.__init__ (lines 122-124): stores the questions
argument as the bank and initialises the queue to a fresh empty list;
the queue parameter is accepted but never read. -/
def QuestionManager.init (questions : List Question) (queue : List Question) :
    QuestionManager :=
  { _questions := questions, _queue := [] }

/-- Decimal digit value of a character, when it is one. -/
def digitVal? (c : Char) : Option Nat :=
  if c.isDigit then some (c.toNat - 48) else none

/-- All-digit reading of a character list; none as soon as a non-digit
appears. -/
def decDigits? : List Char → Option (List Nat)
  | [] => some []
  | c :: cs =>
    match digitVal? c, decDigits? cs with
    | some d, some ds => some (d :: ds)
    | _, _ => none

/-- The natural number written by a digit list, most significant first. -/
def natOfDigits (ds : List Nat) : Nat :=
  ds.foldl (fun a d => 10 * a + d) 0

/-- Applies an optional leading minus sign. -/
def signed (neg : Bool) (n : Nat) : Int :=
  if neg then -(n : Int) else (n : Int)

/-- Python float(s), restricted to the plain decimal notation this
program feeds it: an optional sign followed by an integer part and an
optional fractional part holding at least one digit between them
(as in 12, -3, 12.5, 12. and .5).  Exponents, underscores, surrounding
whitespace, unicode digits, inf and nan lie outside the modelled
subset. -/
def pyFloat? (s : String) : Option PyFloat :=
  let cs := s.toList
  let neg : Bool :=
    match cs with
    | '-' :: _ => true
    | _ => false
  let body : List Char :=
    match cs with
    | '-' :: t => t
    | '+' :: t => t
    | _ => cs
  match body.splitOn '.' with
  | [ip] =>
    match decDigits? ip with
    | some ds => if ip.isEmpty then none else some ⟨signed neg (natOfDigits ds), 1⟩
    | none => none
  | [ip, fp] =>
    match decDigits? ip, decDigits? fp with
    | some ids, some fds =>
      if ip.isEmpty && fp.isEmpty then none
      else some ⟨signed neg (natOfDigits ids * 10 ^ fp.length + natOfDigits fds),
                 10 ^ fp.length⟩
    | _, _ => none
  | _ => none

/-- list(map(float, row[3:6])) on line 153: parses every entry; Python
raises ValueError at the first failing entry and no list is produced,
so the result is all-or-nothing. -/
def parseFloats? : List String → Option (List PyFloat)
  | [] => some []
  | s :: rest =>
    match pyFloat? s, parseFloats? rest with
    | some v, some vs => some (v :: vs)
    | _, _ => none

/-- Question(*args): the dataclass call accepts exactly six or seven
positional arguments; with six, the tags field keeps its declared
default, the builtin list type object.  Any other count raises
TypeError. -/
def mkQuestion? : List PyVal → Option Question
  | [a, b, c, d, e, f] => some ⟨a, b, c, d, e, f, PyVal.vListType⟩
  | [a, b, c, d, e, f, t] => some ⟨a, b, c, d, e, f, t⟩
  | _ => none

/-- State threaded through QuestionManager.load: the bank being appended
to, the current binding of the local q_values (none while it is still
unbound), and the rows passed to on_bad_line so far, in order. -/
structure LoadState where
  bank : List Question
  qvals : Option (List PyFloat)
  reports : List (List String)
  deriving DecidableEq

/-- The initial state of one call to load on a fresh manager. -/
def st0 : LoadState :=
  { bank := [], qvals := none, reports := [] }

/-- Lines 160-162 of QuestionManager.load: tags = row[6:], then
Question(*row[:3], *q_values, tags) is appended to the bank.  Reading
q_values raises UnboundLocalError when no earlier row has bound it, and
the dataclass call raises TypeError when the argument count is not six
or seven. -/
def constructStep (row : List String) (st : LoadState) :
    LoadState × Option PyError :=
  match st.qvals with
  | none => (st, some (PyError.unboundLocal "q_values"))
  | some vs =>
    match mkQuestion? ((row.take 3).map PyVal.vStr ++ vs.map PyVal.vNum
        ++ [PyVal.vStrList (row.drop 6)]) with
    | none => (st, some PyError.typeErrorArity)
    | some q => ({ st with bank := st.bank ++ [q] }, none)

/-- Lines 152-158 of QuestionManager.load: the try block binds q_values
to the float parse of row[3:6]; on ValueError the row is passed to
on_bad_line when a callback was given - control then falls through to
the construction, there being no continue statement - and with no
callback the ValueError propagates. -/
def parseStep (cb : Bool) (row : List String) (st : LoadState) :
    LoadState × Option PyError :=
  match parseFloats? ((row.drop 3).take 3) with
  | some vs => constructStep row { st with qvals := some vs }
  | none =>
    if cb then constructStep row { st with reports := st.reports ++ [row] }
    else (st, some (PyError.valueErrorBadFloat row))

/-- One iteration of the row loop of QuestionManager.load (lines
144-162).  Lines 145-149: a row of fewer than six columns raises
IndexError when no callback was given, and is passed to on_bad_line
otherwise - with no continue statement, control falls through to the
rest of the iteration either way.  The callback is modelled as recording
its argument in reports. -/
def processRow (cb : Bool) (st : LoadState) (row : List String) :
    LoadState × Option PyError :=
  if row.length < 6 then
    if cb then parseStep cb row { st with reports := st.reports ++ [row] }
    else (st, some (PyError.indexErrorShortRow row))
  else parseStep cb row st

/-- The whole row loop of QuestionManager.load: rows are processed in
order until the first uncaught exception; the result is the state
reached together with the exception, if any. -/
def loadRows (cb : Bool) (st : LoadState) :
    List (List String) → LoadState × Option PyError
  | [] => (st, none)
  | row :: rest =>
    match processRow cb st row with
    | (st1, none) => loadRows cb st1 rest
    | (st1, some e) => (st1, some e)

/-- The rows the csv reader yields on line 143: csv.reader is passed
file - the path string - instead of the opened handle q_file, so it
iterates the characters of the path and parses each character as one
record: a comma becomes a row of two empty columns, and any other
quote-free newline-free character becomes a single one-character
column.  The contents of the opened file are never read. -/
def pathRows (file : String) : List (List String) :=
  file.toList.map fun c =>
    if c = ',' then ["", ""] else [String.singleton c]

/-- QuestionManager.load (lines 127-162), assembled from the pieces
above: the rows fed to the loop come from the path string itself, the
bank starts from the questions already held by the manager, and the
method returns the updated manager together with the reported rows and
the exception that escaped, if any. -/
def QuestionManager.load (cb : Bool) (qm : QuestionManager) (file : String) :
    QuestionManager × List (List String) × Option PyError :=
  let r := loadRows cb { bank := qm._questions, qvals := none, reports := [] }
      (pathRows file)
  ({ qm with _questions := r.1.bank }, r.1.reports, r.2)

/-- random.choice(seq): draws seq[i] for a random i below len(seq),
modelled by passing the draw r in and reducing it modulo the length; on
an empty sequence it raises IndexError. -/
def randomChoice {α : Type} (l : List α) (r : Nat) : Except PyError α :=
  if h : l.length = 0 then Except.error PyError.indexErrorEmptyChoice
  else Except.ok (l.get ⟨r % l.length, Nat.mod_lt r (Nat.pos_of_ne_zero h)⟩)

/-- QuestionManager.random_question (lines 165-170): random.choice over
the loaded question bank. -/
def QuestionManager.random_question (qm : QuestionManager) (r : Nat) :
    Except PyError Question :=
  randomChoice qm._questions r

/-- QuestionManager.random_tag (lines 173-190).  Both branches build
their comprehension with the clauses in the wrong order -
set(t for t in q.tags for q in self.questions) - so Python evaluates
the leading iterable q.tags eagerly in the enclosing scope, where no q
is bound, and every call raises NameError before any draw happens (were
q bound, self.questions would raise AttributeError next, the attribute
being _questions).  The method can therefore never return a tag. -/
def QuestionManager.random_tag (qm : QuestionManager)
    (ignore_frequency : Bool) : Except PyError String :=
  Except.error (PyError.nameError "q")

/-- The settings values App._load_questions consults, as already-parsed
strings of the configuration file. -/
structure AppSettings where
  title : String
  files : String
  ignorebadlines : String
  deriving DecidableEq

/-- Observable steps of App._load_questions: a warning or error dialog,
or a call of QuestionManager.load on a path. -/
inductive AppEvent where
  | warnDialog (title msg : String)
  | errorDialog (title msg : String)
  | loadCall (path : String)
  deriving DecidableEq

/-- Attribute lookup on an App object: __init__ (lines 199-208) assigns
_settings and _q_manager, and WindowedApplication.__init__ assigns
_frame; looking up any other name - settings in particular - raises
AttributeError (the tkinter fallback that delegates unknown names to the
embedded interpreter object has no such attribute either). -/
def appGetattr (name : String) : Except PyError Unit :=
  if name = "_settings" ∨ name = "_q_manager" ∨ name = "_frame" then Except.ok ()
  else Except.error (PyError.attributeError name)

/-- The per-path loop of App._load_questions (lines 225-230): a path
that is not a file shows an error dialog - whose message template is
never formatted with the path, as on line 228 - and the loop continues;
an existing path is handed to QuestionManager.load. -/
def loadQuestionsLoop (isfile : String → Bool) : List String → List AppEvent
  | [] => []
  | p :: ps =>
    if isfile p then AppEvent.loadCall p :: loadQuestionsLoop isfile ps
    else AppEvent.errorDialog "Error"
        "\x7b\x7d does not exist. Could not load questions."
        :: loadQuestionsLoop isfile ps

/-- App._load_questions (lines 211-230).  Line 214 evaluates
self.settings.getboolean(...), but the constructor stored the parser
under _settings (line 201) and no settings attribute exists, so the
lookup raises AttributeError; the surrounding handler only catches
KeyError and ValueError, so the method aborts before any path is
examined and loadQuestionsLoop is unreachable. -/
def appLoadQuestions (s : AppSettings) (isfile : String → Bool) :
    List AppEvent × Option PyError :=
  match appGetattr "settings" with
  | Except.error e => ([], some e)
  | Except.ok _ => (loadQuestionsLoop isfile (s.files.splitOn ","), none)

/-- Modelled from the spec: the Question record of section 3.  The
repository has no SessionController implementation under src - the
QuestionManager declares the queue field (line 124) but no code ever
refills or pops it - so the record and the session operations below
follow the words of the spec. -/
structure SQuestion where
  id : String
  category : String
  prompt : String
  answer : String
  value : Rat
  tags : List String
  deriving DecidableEq

/-- Ascending point-value order on spec questions. -/
def valueLE (a b : SQuestion) : Prop :=
  a.value ≤ b.value

instance : DecidableRel valueLE :=
  fun a b => inferInstanceAs (Decidable (a.value ≤ b.value))

instance : IsTotal SQuestion valueLE :=
  ⟨fun a b => le_total a.value b.value⟩

instance : IsTrans SQuestion valueLE :=
  ⟨fun _ _ _ hab hbc => le_trans hab hbc⟩

/-- Modelled from the spec: SessionController state of section 3 - the
bank, the queue awaiting presentation and the active category. -/
structure SessionState where
  bank : List SQuestion
  queue : List SQuestion
  activeCategory : String
  deriving DecidableEq

/-- Modelled from the spec: the set of distinct categories that
randomCategory with weighted = false draws from, as the first-occurrence
deduplication of the category column. -/
def distinctCategories (bank : List SQuestion) : List String :=
  (bank.map fun q => q.category).eraseDups

/-- Modelled from the spec: the queue refill of section 4.2 - every
question of the chosen category, ordered ascending by value with a
stable sort, ties keeping original load order. -/
def refill (bank : List SQuestion) (cat : String) : List SQuestion :=
  List.insertionSort valueLE (bank.filter fun q => q.category == cat)

/-- Modelled from the spec: SessionController.nextQuestion of section
4.2 - when the queue is empty a new active category is chosen via
randomCategory (the draw r), the queue is refilled from it, and the
first queue element is popped and returned; EmptyBank - the empty-draw
IndexError - when the bank holds no questions. -/
def nextQuestion (st : SessionState) (r : Nat) :
    Except PyError (SQuestion × SessionState) :=
  match st.queue with
  | q :: rest => Except.ok (q, { st with queue := rest })
  | [] =>
    match randomChoice (distinctCategories st.bank) r with
    | Except.error e => Except.error e
    | Except.ok cat =>
      match refill st.bank cat with
      | [] => Except.error PyError.indexErrorEmptyChoice
      | q :: rest =>
        Except.ok (q, { st with queue := rest, activeCategory := cat })

/-- Runs n successive nextQuestion calls from a state, collecting the
returned questions in order; a failing call ends the run. -/
def runNext (r : Nat) : Nat → SessionState → List SQuestion
  | 0, _ => []
  | n + 1, st =>
    match nextQuestion st r with
    | Except.error _ => []
    | Except.ok (q, st1) => q :: runNext r n st1

/-- A concrete well-formed question for the concrete evaluations. -/
def q0 : Question :=
  ⟨PyVal.vStr "1", PyVal.vStr "Who was first", PyVal.vStr "Washington",
   PyVal.vNum ⟨100, 1⟩, PyVal.vNum ⟨50, 1⟩, PyVal.vNum ⟨0, 1⟩,
   PyVal.vStrList ["History"]⟩

/-- A concrete spec-level bank: two History questions out of value
order and one Science question, as in the worked example of section
8 of the spec. -/
def bankH : List SQuestion :=
  [⟨"2", "History", "p2", "a2", 200, []⟩,
   ⟨"1", "History", "p1", "a1", 100, []⟩,
   ⟨"3", "Science", "p3", "a3", 50, []⟩]

/-- Appended floats keep the list lengths aligned: a successful parse of
a string list yields one float per string. -/
theorem parseFloats?_length : ∀ {l : List String} {vs : List PyFloat},
    parseFloats? l = some vs → vs.length = l.length := by
  intro l
  induction l with
  | nil =>
    intro vs h
    simp [parseFloats?] at h
    simp [h.symm]
  | cons s rest ih =>
    intro vs h
    simp only [parseFloats?] at h
    split at h
    · next v vs1 hv hr =>
      cases h
      simp [ih hr]
    · exact absurd h (by simp)

/-- Behaviour of one loop iteration on a well-formed row: at least six
columns whose fourth, fifth and sixth cells parse as floats.  Exactly
one question is appended - its string fields from the first three
columns, its three value fields from the parsed floats, its tags from
the seventh column onward - q_values is rebound, no report is made and
no exception is raised. -/
theorem processRow_valid_eq (cb : Bool) (st : LoadState)
    (a b c d e f : String) (rest : List String) (v1 v2 v3 : PyFloat)
    (h1 : pyFloat? d = some v1) (h2 : pyFloat? e = some v2)
    (h3 : pyFloat? f = some v3) :
    processRow cb st (a :: b :: c :: d :: e :: f :: rest)
      = ({ st with
            qvals := some [v1, v2, v3],
            bank := st.bank ++ [⟨PyVal.vStr a, PyVal.vStr b, PyVal.vStr c,
              PyVal.vNum v1, PyVal.vNum v2, PyVal.vNum v3,
              PyVal.vStrList rest⟩] }, none) := by
  have hlen : ¬ (a :: b :: c :: d :: e :: f :: rest).length < 6 := by
    simp only [List.length_cons]
    omega
  simp [processRow, hlen, parseStep, parseFloats?, h1, h2, h3,
    constructStep, mkQuestion?]

/-- The construction step can only append to the bank. -/
theorem constructStep_bank (row : List String) (st : LoadState) :
    ∃ new, (constructStep row st).1.bank = st.bank ++ new := by
  unfold constructStep
  split
  · exact ⟨[], by simp⟩
  · split
    · exact ⟨[], by simp⟩
    · next q _ => exact ⟨[q], by simp⟩

/-- The parse step can only append to the bank. -/
theorem parseStep_bank (cb : Bool) (row : List String) (st : LoadState) :
    ∃ new, (parseStep cb row st).1.bank = st.bank ++ new := by
  unfold parseStep
  split
  · exact constructStep_bank row _
  · split
    · exact constructStep_bank row _
    · exact ⟨[], by simp⟩

/-- A loop iteration can only append to the bank. -/
theorem processRow_bank (cb : Bool) (row : List String) (st : LoadState) :
    ∃ new, (processRow cb st row).1.bank = st.bank ++ new := by
  unfold processRow
  split
  · split
    · exact parseStep_bank cb row _
    · exact ⟨[], by simp⟩
  · exact parseStep_bank cb row st

/-- The whole loop can only append to the bank, whether it runs to
completion or stops at an exception. -/
theorem loadRows_bank (cb : Bool) : ∀ (rows : List (List String)) (st : LoadState),
    ∃ new, (loadRows cb st rows).1.bank = st.bank ++ new := by
  intro rows
  induction rows with
  | nil => exact fun st => ⟨[], by simp [loadRows]⟩
  | cons row rest ih =>
    intro st
    obtain ⟨d, hd⟩ := processRow_bank cb row st
    simp only [loadRows]
    cases hp : processRow cb st row with
    | mk st1 oe =>
      rw [hp] at hd
      simp only at hd
      cases oe with
      | none =>
        obtain ⟨new, hnew⟩ := ih st1
        exact ⟨d ++ new, by rw [hnew, hd, List.append_assoc]⟩
      | some e => exact ⟨d, hd⟩

/-- Popping n times from a session whose queue holds at least n entries
returns exactly the first n queue entries, in order. -/
theorem runNext_take (r : Nat) : ∀ (n : Nat) (st : SessionState),
    n ≤ st.queue.length → runNext r n st = st.queue.take n := by
  intro n
  induction n with
  | zero => intro st _; simp [runNext]
  | succ m ih =>
    intro st h
    cases hq : st.queue with
    | nil => rw [hq] at h; simp at h
    | cons q rest =>
      have hnext : nextQuestion st r = Except.ok (q, { st with queue := rest }) := by
        simp [nextQuestion, hq]
      have hrest : m ≤ rest.length := by
        rw [hq] at h
        simpa using Nat.le_of_succ_le_succ h
      simp [runNext, hnext, hq, ih { st with queue := rest } hrest]

/-- C1: the row ["q1","what","ans","10","20"] has five columns, so it is
invalid, and a callback is supplied - yet load both passes it to the
callback and appends a Question built from it to the bank: after the
on_bad_line call the loop body keeps running (there is no continue), the
two cells "10" and "20" parse as floats, and Question("q1","what","ans",
10.0,20.0,[]) is constructed, its skip_value taking the empty tags list
and its tags field the dataclass default.  This refutes the claim that a
bad row is reported exactly once and never appended. -/
theorem c1_bad_row_reported_and_appended :
    loadRows true st0 [["q1", "what", "ans", "10", "20"]]
      = ({ bank := [⟨PyVal.vStr "q1", PyVal.vStr "what", PyVal.vStr "ans",
              PyVal.vNum ⟨10, 1⟩, PyVal.vNum ⟨20, 1⟩, PyVal.vStrList [],
              PyVal.vListType⟩],
           qvals := some [⟨10, 1⟩, ⟨20, 1⟩],
           reports := [["q1", "what", "ans", "10", "20"]] }, none) := by
  decide

/-- C2: loading a source consisting only of the invalid five-column row
["a","b","c","1","2"] with a callback supplied leaves the bank
non-empty: the row is reported and then - control falling through - a
Question is built from it and appended, refuting the claim that the
bank stays empty after an all-invalid load. -/
theorem c2_invalid_rows_still_populate_bank :
    (loadRows true st0 [["a", "b", "c", "1", "2"]]).1.reports
        = [["a", "b", "c", "1", "2"]]
      ∧ (loadRows true st0 [["a", "b", "c", "1", "2"]]).1.bank ≠ [] := by
  decide

/-- C3 counterexample: loading the single row "a,b,c,d,notanumber" with
no callback raises the short-row IndexError of line 147 - the row has
five columns and the code demands six - not the malformed-value
ValueError the claim requires. -/
theorem c3_counterexample :
    loadRows false st0 [["a", "b", "c", "d", "notanumber"]]
      = (st0, some (PyError.indexErrorShortRow
          ["a", "b", "c", "d", "notanumber"])) := by
  decide

/-- C3 amended: load treats a row as invalid exactly when it has fewer
than six columns or when one of columns 4-6 does not parse as a number -
with no callback, an iteration finishes without an exception precisely
on the valid rows - and the single row "a,b,c,d,notanumber" therefore
fails with the short-row error, not a malformed-value error. -/
theorem c3_amended :
    (∀ (st : LoadState) (row : List String),
        (processRow false st row).2 = none ↔
          6 ≤ row.length ∧ (parseFloats? ((row.drop 3).take 3)).isSome) ∧
      loadRows false st0 [["a", "b", "c", "d", "notanumber"]]
        = (st0, some (PyError.indexErrorShortRow
            ["a", "b", "c", "d", "notanumber"])) := by
  constructor
  · intro st row
    by_cases hlen : row.length < 6
    · simp [processRow, hlen]
    · rcases row with _ | ⟨a, _ | ⟨b, _ | ⟨c, _ | ⟨d, _ | ⟨e, _ | ⟨f, rest⟩⟩⟩⟩⟩⟩
      · exact absurd (by simp) hlen
      · exact absurd (by simp) hlen
      · exact absurd (by simp) hlen
      · exact absurd (by simp) hlen
      · exact absurd (by simp) hlen
      · exact absurd (by simp) hlen
      · have hif : ¬ rest.length + 1 + 1 + 1 + 1 + 1 + 1 < 6 := by omega
        cases hd : pyFloat? d with
        | none => simp [processRow, hif, parseStep, parseFloats?, hd]
        | some v1 =>
          cases he : pyFloat? e with
          | none => simp [processRow, hif, parseStep, parseFloats?, hd, he]
          | some v2 =>
            cases hf : pyFloat? f with
            | none =>
              simp [processRow, hif, parseStep, parseFloats?, hd, he, hf]
            | some v3 =>
              rw [processRow_valid_eq false st a b c d e f rest v1 v2 v3 hd he hf]
              simp [parseFloats?, hd, he, hf]
  · decide

/-- C4 counterexample: the seven-column row ["a","b","c","1","2","3","t"]
is valid and produces exactly one question, but its tags field is ["t"] -
the columns from the seventh onward - not the columns from the sixth
onward (["3","t"]) that the claim asserts, and the record carries three
numeric values and no category field rather than the claimed single
value in a fixed id, category, prompt, answer, value order. -/
theorem c4_counterexample :
    (loadRows false st0 [["a", "b", "c", "1", "2", "3", "t"]]).1.bank
        = [⟨PyVal.vStr "a", PyVal.vStr "b", PyVal.vStr "c", PyVal.vNum ⟨1, 1⟩,
            PyVal.vNum ⟨2, 1⟩, PyVal.vNum ⟨3, 1⟩, PyVal.vStrList ["t"]⟩]
      ∧ PyVal.vStrList ["t"] ≠ PyVal.vStrList ["3", "t"] := by
  decide

/-- C4 amended: for every valid row - at least six columns, columns 4-6
parsing as numbers - one loop iteration constructs exactly one Question,
its fields mapped positionally in the fixed order identifer, question,
answer, correct_value, incorrect_value, skip_value from columns 1-6, and
its tags equal to columns 7 through the end of the row (possibly empty);
the question is appended to the bank, nothing is reported and no
exception is raised, with or without a callback. -/
theorem c4_amended (cb : Bool) (st : LoadState) (a b c d e f : String)
    (rest : List String) (v1 v2 v3 : PyFloat)
    (h1 : pyFloat? d = some v1) (h2 : pyFloat? e = some v2)
    (h3 : pyFloat? f = some v3) :
    processRow cb st (a :: b :: c :: d :: e :: f :: rest)
      = ({ st with
            qvals := some [v1, v2, v3],
            bank := st.bank ++ [⟨PyVal.vStr a, PyVal.vStr b, PyVal.vStr c,
              PyVal.vNum v1, PyVal.vNum v2, PyVal.vNum v3,
              PyVal.vStrList rest⟩] }, none) :=
  processRow_valid_eq cb st a b c d e f rest v1 v2 v3 h1 h2 h3

/-- C4 witness: the amended statement evaluated on the concrete valid
row ["a","b","c","1","2","3","t"] from the fresh load state. -/
theorem c4_amended_witness :
    processRow false st0 ["a", "b", "c", "1", "2", "3", "t"]
      = ({ st0 with
            qvals := some [⟨1, 1⟩, ⟨2, 1⟩, ⟨3, 1⟩],
            bank := [⟨PyVal.vStr "a", PyVal.vStr "b", PyVal.vStr "c",
              PyVal.vNum ⟨1, 1⟩, PyVal.vNum ⟨2, 1⟩, PyVal.vNum ⟨3, 1⟩,
              PyVal.vStrList ["t"]⟩] }, none) :=
  c4_amended false st0 "a" "b" "c" "1" "2" "3" ["t"] ⟨1, 1⟩ ⟨2, 1⟩ ⟨3, 1⟩
    (by decide) (by decide) (by decide)

/-- C5: random_question raises the empty-draw IndexError exactly on an
empty bank, and on a non-empty bank always returns a member of the
loaded question sequence, whatever the random draw. -/
theorem c5_random_question : ∀ (qm : QuestionManager) (r : Nat),
    (qm._questions = [] →
        QuestionManager.random_question qm r
          = Except.error PyError.indexErrorEmptyChoice)
      ∧ (∀ q, QuestionManager.random_question qm r = Except.ok q →
          q ∈ qm._questions)
      ∧ (qm._questions ≠ [] →
          ∃ q, q ∈ qm._questions
            ∧ QuestionManager.random_question qm r = Except.ok q) := by
  intro qm r
  refine ⟨?_, ?_, ?_⟩
  · intro h
    simp [QuestionManager.random_question, randomChoice, h]
  · intro q hq
    unfold QuestionManager.random_question randomChoice at hq
    split at hq
    · simp at hq
    · next h =>
      simp only [Except.ok.injEq] at hq
      exact hq ▸ List.get_mem _ _ _
  · intro h
    have hlen : qm._questions.length ≠ 0 := by
      simpa [List.length_eq_zero] using h
    refine ⟨qm._questions.get
        ⟨r % qm._questions.length, Nat.mod_lt r (Nat.pos_of_ne_zero hlen)⟩,
      List.get_mem _ _ _, ?_⟩
    simp [QuestionManager.random_question, randomChoice, hlen]

/-- C5 witness: the empty-bank case applied to a fresh empty manager and
the membership case applied to the one-question bank [q0] with draw 0. -/
theorem c5_witness :
    QuestionManager.random_question (QuestionManager.init [] []) 0
        = Except.error PyError.indexErrorEmptyChoice
      ∧ q0 ∈ (QuestionManager.init [q0] [])._questions :=
  ⟨(c5_random_question (QuestionManager.init [] []) 0).1 rfl,
    (c5_random_question (QuestionManager.init [q0] []) 0).2.1 q0 rfl⟩

/-- C6: random_tag never returns a category: both of its branches raise
NameError at the comprehension (whose leading iterable q.tags mentions q
before it is bound; self.questions would be an AttributeError besides),
even on the non-empty bank [q0] whose question carries the tag History,
refuting the claim that on a non-empty bank a category is drawn and
returned. -/
theorem c6_random_tag_always_raises :
    QuestionManager.random_tag (QuestionManager.init [q0] []) true
        = Except.error (PyError.nameError "q")
      ∧ QuestionManager.random_tag (QuestionManager.init [q0] []) false
        = Except.error (PyError.nameError "q") :=
  ⟨rfl, rfl⟩

/-- C7: starting from an empty queue, once randomCategory has drawn the
category cat the refill holds every question of that category stably
sorted ascending by value, and n successive nextQuestion calls within
that one refill return exactly its first n entries - each call popping
the first queue element - so the returned questions are in
non-decreasing value order. -/
theorem c7_next_question_sorted (bank : List SQuestion) (c0 : String)
    (r n : Nat) (cat : String)
    (hcat : randomChoice (distinctCategories bank) r = Except.ok cat)
    (hn : n ≤ (refill bank cat).length) :
    runNext r n ⟨bank, [], c0⟩ = (refill bank cat).take n
      ∧ List.Sorted valueLE (runNext r n ⟨bank, [], c0⟩) := by
  have hrun : runNext r n ⟨bank, [], c0⟩ = (refill bank cat).take n := by
    cases n with
    | zero => simp [runNext]
    | succ m =>
      cases hR : refill bank cat with
      | nil => rw [hR] at hn; simp at hn
      | cons q rest =>
        have hnext : nextQuestion ⟨bank, [], c0⟩ r
            = Except.ok (q, ⟨bank, rest, cat⟩) := by
          simp [nextQuestion, hcat, hR]
        have hrest : m ≤ rest.length := by
          rw [hR] at hn
          simpa using Nat.le_of_succ_le_succ hn
        simp [runNext, hnext, runNext_take r m ⟨bank, rest, cat⟩ hrest]
  refine ⟨hrun, ?_⟩
  rw [hrun]
  exact (List.sorted_insertionSort valueLE
    (bank.filter fun q => q.category == cat)).sublist
    (List.take_sublist n (refill bank cat))

/-- C7 witness: on the three-question bank bankH the draw 0 picks the
category History, whose refill holds two questions, and two successive
calls return them in sorted order. -/
theorem c7_witness :
    List.Sorted valueLE (runNext 0 2 ⟨bankH, [], ""⟩) :=
  (c7_next_question_sorted bankH "" 0 2 "History" (by decide) (by decide)).2

/-- C8: calling App._load_questions with a missing first source and a
readable second source does not skip-and-continue: it raises
AttributeError at the very first statement - self.settings names an
attribute that was stored as _settings - so no warning dialog is shown,
no path is examined and the readable source is never loaded, refuting
the skip-with-warning-and-continue claim. -/
theorem c8_load_questions_aborts :
    appLoadQuestions ⟨"J-Practice", "missing.csv,good.csv", "yes"⟩
        (fun p => p == "good.csv")
      = ([], some (PyError.attributeError "settings")) :=
  rfl

/-- C9: the QuestionManager constructor initialises the internal queue to
the empty list whatever queue argument is passed: the parameter is
ignored, and two constructions differing only in it are equal. -/
theorem c9_init_queue_ignored : ∀ (qs qu qu' : List Question),
    (QuestionManager.init qs qu)._queue = []
      ∧ QuestionManager.init qs qu = QuestionManager.init qs qu' :=
  fun _ _ _ => ⟨rfl, rfl⟩

/-- C10: load only appends to the bank - for every callback setting,
every starting state and every row sequence, the bank after the loop is
the bank before it followed by the newly accepted questions, whether the
loop completes or stops at an exception; likewise for the whole load
method on a manager. -/
theorem c10_load_appends :
    (∀ (cb : Bool) (rows : List (List String)) (st : LoadState),
        ∃ new, (loadRows cb st rows).1.bank = st.bank ++ new)
      ∧ ∀ (cb : Bool) (qm : QuestionManager) (file : String),
          ∃ new, (QuestionManager.load cb qm file).1._questions
            = qm._questions ++ new := by
  constructor
  · intro cb rows st
    exact loadRows_bank cb rows st
  · intro cb qm file
    obtain ⟨new, h⟩ := loadRows_bank cb (pathRows file)
      { bank := qm._questions, qvals := none, reports := [] }
    exact ⟨new, by simpa [QuestionManager.load] using h⟩
